import Mathlib

/-!
Verification of the binary-path-resolution logic of `ax` (src/ax/Config.h).

The source defines a single compile-time selected constant:

  #ifdef AXLOCKD_PATH_VALUE
  static const char * const AXLOCKD_PATH = AXLOCKD_PATH_VALUE;
  #else
  static const char * const AXLOCKD_PATH = (const char *)0;
  #endif

We embed the build configuration as an `Option String` (the optional
`AXLOCKD_PATH_VALUE` preprocessor definition: `none` when it is omitted,
`some s` when it is supplied with the string literal `s`), and the resolved
constant as a function of that configuration.  The null-pointer sentinel of
the C source is embedded as `none`, a supplied string as `some s`.
-/

/-- Embedding of src/ax/Config.h lines 16-20: the resolved constant
`AXLOCKD_PATH`, as a function of the optional build parameter
`AXLOCKD_PATH_VALUE`.  When the parameter is defined, the constant is the
supplied string, verbatim; when it is not, the constant is the null pointer,
embedded here as `none`. -/
def AXLOCKD_PATH : Option String → Option String
  | some v => some v
  | none => none

theorem AXLOCKD_PATH_eq (cfg : Option String) : AXLOCKD_PATH cfg = cfg := by
  cases cfg <;> rfl

/-- Process state visible to readers of the constant: the C object
`AXLOCKD_PATH` has static storage duration and is `const`-qualified, so the
state holds its (fixed) value. -/
structure ProcState where
  axlockdPath : Option String
  deriving DecidableEq, Repr

/-- Process startup under build configuration `cfg`: the constant is
established from the build parameter before any reader runs. -/
def initProc (cfg : Option String) : ProcState :=
  { axlockdPath := AXLOCKD_PATH cfg }

/-- A single read of the constant `AXLOCKD_PATH` by a caller: it returns the
stored value and, being a read of a `const` object, leaves the state
unchanged. -/
def readAxlockdPath (st : ProcState) : Option String × ProcState :=
  (st.axlockdPath, st)

/-- `n` successive reads of the constant within one process lifetime,
collecting the observed values. -/
def readSeq (st : ProcState) : Nat → List (Option String) × ProcState
  | 0 => ([], st)
  | n + 1 =>
    let r := readAxlockdPath st
    let rest := readSeq r.2 n
    (r.1 :: rest.1, rest.2)

/-- An interleaved execution of reads by any number of concurrent callers:
the schedule lists, in order, which caller performs the next read.  Each
scheduled caller reads the constant and execution continues in the resulting
state; the observations pair each caller with the value it saw. -/
def runSchedule (st : ProcState) : List Nat → List (Nat × Option String) × ProcState
  | [] => ([], st)
  | c :: rest =>
    let r := readAxlockdPath st
    let tail := runSchedule r.2 rest
    ((c, r.1) :: tail.1, tail.2)

/-- Resolution instrumented with an event trace: the C source performs the
selection entirely with the preprocessor and a constant declaration, so no
input, output or other event is emitted during resolution. -/
def resolveTraced (cfg : Option String) (tr : List String) :
    Option String × List String :=
  (AXLOCKD_PATH cfg, tr)

/-- Modelled from the spec: the output shape the specification asserts for
the resolver, namely a non-empty absolute path string (one beginning with a
slash) or the absent value.  This definition follows the spec's words and is
compared against the source embedding `AXLOCKD_PATH`. -/
def specOutputShape (r : Option String) : Bool :=
  match r with
  | some s =>
    match s.data with
    | [] => false
    | c :: _ => c = '/'
  | none => true

theorem readSeq_spec (st : ProcState) (n : Nat) :
    readSeq st n = (List.replicate n st.axlockdPath, st) := by
  induction n with
  | zero => rfl
  | succ n ih => simp [readSeq, readAxlockdPath, ih, List.replicate]

theorem runSchedule_spec (st : ProcState) (sched : List Nat) :
    runSchedule st sched = (sched.map (fun c => (c, st.axlockdPath)), st) := by
  induction sched with
  | nil => rfl
  | cons c rest ih => simp [runSchedule, readAxlockdPath, ih]

/-- C1: for every build in which the path build parameter `AXLOCKD_PATH_VALUE`
is supplied with a non-empty string `s`, the resolved value `AXLOCKD_PATH`
equals `s` exactly, with no transformation applied. -/
theorem axlockd_path_supplied_nonempty_exact (s : String) (h : s ≠ "") :
    AXLOCKD_PATH (some s) = some s :=
  rfl

/-- Witness for C1 at the spec's concrete distribution path. -/
theorem axlockd_path_supplied_nonempty_exact_witness :
    "/usr/local/libexec/axlockd" ≠ "" ∧
      AXLOCKD_PATH (some "/usr/local/libexec/axlockd") =
        some "/usr/local/libexec/axlockd" :=
  ⟨by decide, axlockd_path_supplied_nonempty_exact "/usr/local/libexec/axlockd" (by decide)⟩

/-- C2: for every build in which the path build parameter is omitted, the
resolved value is the absent sentinel (the null pointer, embedded as `none`),
never the empty string and never an arbitrary string. -/
theorem axlockd_path_omitted_absent :
    AXLOCKD_PATH none = none ∧
      AXLOCKD_PATH none ≠ some "" ∧
      ∀ s : String, AXLOCKD_PATH none ≠ some s := by
  refine ⟨rfl, by simp [AXLOCKD_PATH], ?_⟩
  intro s
  simp [AXLOCKD_PATH]

/-- C3 counterexample: the claim says every resolved value is a non-empty
absolute path string or the absent value, but the build configuration that
supplies the empty string resolves to the present empty string, which is
neither. -/
theorem axlockd_path_spec_shape_counterexample :
    specOutputShape (AXLOCKD_PATH (some "")) = false := by
  decide

/-- C3 (amended): the resolver's output is always one of exactly two things:
(a) the supplied build-parameter string, adopted verbatim (it need not be
non-empty or absolute), or (b) the well-defined absent value; for every build
configuration the resolved value falls into one of these two shapes. -/
theorem axlockd_path_two_shapes_verbatim (cfg : Option String) :
    (∃ s, cfg = some s ∧ AXLOCKD_PATH cfg = some s) ∨
      (cfg = none ∧ AXLOCKD_PATH cfg = none) := by
  cases cfg with
  | some s => exact Or.inl ⟨s, rfl, rfl⟩
  | none => exact Or.inr ⟨rfl, rfl⟩

/-- C4: when the build parameter is supplied as the empty string, the resolved
value is exactly the present empty string, not the absent sentinel, and the
absent sentinel produced when the parameter is omitted is distinct from every
path string, including the empty one. -/
theorem axlockd_path_empty_passthrough_distinct :
    AXLOCKD_PATH (some "") = some "" ∧
      AXLOCKD_PATH (some "") ≠ none ∧
      ∀ s : String, AXLOCKD_PATH none ≠ some s := by
  refine ⟨rfl, by simp [AXLOCKD_PATH], ?_⟩
  intro s
  simp [AXLOCKD_PATH]

/-- C5: for every build configuration, resolution cannot fail and has no side
effects: it emits no event (no input/output) and leaves the trace untouched,
it always produces the resolved value, and its only non-path outcome is the
deliberate absent sentinel, which arises exactly when the parameter is
omitted. -/
theorem axlockd_path_resolution_total_pure (cfg : Option String) (tr : List String) :
    resolveTraced cfg tr = (AXLOCKD_PATH cfg, tr) ∧
      (AXLOCKD_PATH cfg = none ↔ cfg = none) := by
  refine ⟨rfl, ?_⟩
  cases cfg <;> simp [AXLOCKD_PATH]

/-- C6: within a single process lifetime the resolved value is stable across
repeated reads: under every build configuration, any number of reads of
`AXLOCKD_PATH` all yield the same value, and the state is never mutated. -/
theorem axlockd_path_stable_reads (cfg : Option String) (n : Nat) :
    (readSeq (initProc cfg) n).1 = List.replicate n (AXLOCKD_PATH cfg) ∧
      (readSeq (initProc cfg) n).2 = initProc cfg := by
  simp [readSeq_spec, initProc]

/-- C7: resolution takes no input at call time and is fully determined by the
build-time selection: any two evaluations under the same build configuration
produce identical resolved values, independent of any runtime state. -/
theorem axlockd_path_deterministic (cfg : Option String) (tr₁ tr₂ : List String) :
    (resolveTraced cfg tr₁).1 = (resolveTraced cfg tr₂).1 ∧
      (resolveTraced cfg tr₁).1 = AXLOCKD_PATH cfg :=
  ⟨rfl, rfl⟩

/-- C8: the resolved value is immutable process-wide state fixed before any
reader can observe it: under every build configuration and every interleaving
of reads by any number of concurrent callers, each caller observes the one
resolved value and no read mutates the state, so no synchronization is
needed. -/
theorem axlockd_path_concurrent_reads_safe (cfg : Option String) (sched : List Nat) :
    (runSchedule (initProc cfg) sched).1 =
        sched.map (fun c => (c, AXLOCKD_PATH cfg)) ∧
      (runSchedule (initProc cfg) sched).2 = initProc cfg := by
  simp [runSchedule_spec, initProc]

/-- C9: the resolver performs no syntactic validation of absoluteness: every
supplied build-parameter string, including relative paths, strings with
whitespace, or arbitrary text, resolves to that string unchanged and is
reported as present. -/
theorem axlockd_path_no_validation (s : String) :
    AXLOCKD_PATH (some s) = some s ∧ (AXLOCKD_PATH (some s)).isSome = true :=
  ⟨rfl, rfl⟩

/-- C10: presence or absence of the result depends only on whether the build
parameter is defined, never on the supplied string's content: every supplied
string (the empty string included) yields the present value carrying that
string and never the absent sentinel, and the present and absent outcomes are
mutually exclusive and exhaustive over all build configurations. -/
theorem axlockd_path_presence_iff_defined (cfg : Option String) :
    (AXLOCKD_PATH cfg).isSome = cfg.isSome ∧
      (∀ s : String, AXLOCKD_PATH (some s) = some s ∧ AXLOCKD_PATH (some s) ≠ none) ∧
      AXLOCKD_PATH none = none := by
  refine ⟨by cases cfg <;> rfl, ?_, rfl⟩
  intro s
  exact ⟨rfl, by simp [AXLOCKD_PATH]⟩
